import Mathlib

/-!
# Verification of the regorm generic repository (`src/unnamed/part_000`)

The repository is a thin, type-parameterized wrapper (`Repository[T]`) around a
gorm store handle (`*gorm.DB`).  Every operation delegates to the store and
normalizes its error: the distinguished `gorm.ErrRecordNotFound` value is
suppressed by `First`/`Find` and surfaced by the `*OrFail` variants; every other
store error is propagated verbatim.

The store handle itself is an external collaborator (spec section 6).  We embed
it as an executable in-memory model following the store-handle contract of the
spec and gorm's documented behavior: single-row fetch ordered by primary key
returning the distinguished not-found value on zero matches, multi-row fetch
returning an empty result (and no error) on zero matches, insert with
auto-assigned identity, upsert-by-identity save, and delete-or-soft-delete.
Store failures (connectivity, constraint violations, ...) are modelled by an
injected failure value carried by the store state, which every store call
reports verbatim.

The wrapper functions (`Repository.First`, `Repository.FirstOrFail`,
`Repository.Find`, `Repository.FindOrFail`, `Repository.Create`,
`Repository.BulkCreate`, `Repository.Update`, `Repository.Delete`,
`Repository.GetDB`, `InitRepository`) are translated line by line from
`src/unnamed/part_000`.
-/

namespace Regorm

/-- Errors reported by the store handle: the distinguished record-not-found
value (`gorm.ErrRecordNotFound`) or any other store error carrying its
message (connectivity, constraint violation, ...). -/
inductive GormError where
  | recordNotFound
  | storeFailure (msg : String)
deriving DecidableEq, Repr

/-- The record type `T` bound to the repository: a primary-key field `id`
(zero meaning "not yet assigned", as in Go's zero value) and an
application-defined payload. -/
structure Model where
  id : Nat
  payload : String
deriving DecidableEq, Repr

/-- A stored row: the persisted image of a `Model`, together with the
soft-delete column (`deleted_at`), when the bound record type carries one. -/
structure Row where
  id : Nat
  payload : String
  deletedAt : Option Nat
deriving DecidableEq, Repr

/-- An opaque filter expression, passed through to the store verbatim and
interpreted only by the store. -/
inductive Cond where
  | byId (i : Nat)
  | byPayload (s : String)
deriving DecidableEq, Repr

/-- Whether a stored row satisfies one filter expression. -/
def Row.matchesCond (r : Row) : Cond → Bool
  | .byId i => r.id == i
  | .byPayload s => r.payload == s

/-- Whether a stored row satisfies every expression of a condition set. -/
def Row.matchesAll (r : Row) (conds : List Cond) : Bool :=
  conds.all r.matchesCond

/-- The state behind a `*gorm.DB` handle: the stored rows, whether the bound
record type carries a soft-delete (`deleted_at`) column, the auto-increment
counter, the current time (for soft-delete timestamps), and an optional
injected store failure (message, plus the row count the store reports as
committed before failing, relevant to batch writes). -/
structure GormDB where
  rows : List Row
  hasDeletedAt : Bool
  nextId : Nat
  now : Nat
  failure : Option (String × Nat)
deriving DecidableEq, Repr

/-- Whether a row is visible to default reads: rows whose soft-delete column
is set are filtered out when the record type carries that column. -/
def GormDB.live (db : GormDB) (r : Row) : Bool :=
  !db.hasDeletedAt || r.deletedAt.isNone

/-- The rows visible to default reads. -/
def GormDB.liveRows (db : GormDB) : List Row :=
  db.rows.filter db.live

/-- The row with the lowest primary key in a list, if any. -/
def pickFirstRow : List Row → Option Row
  | [] => none
  | r :: rs =>
    match pickFirstRow rs with
    | none => some r
    | some b => if r.id ≤ b.id then some r else some b

/-- Result of a single-row store read: the raw store error, the affected-row
count, and the destination value after the call (gorm leaves the destination
untouched when no row is scanned). -/
structure ReadOneRes where
  error : Option GormError
  rowsAffected : Int
  dest : Model
deriving DecidableEq, Repr

/-- Result of a multi-row store read. -/
structure ReadManyRes where
  error : Option GormError
  rowsAffected : Int
  dest : List Model
deriving DecidableEq, Repr

/-- Result of a store write that only touches stored rows. -/
structure WriteRes where
  error : Option GormError
  rowsAffected : Int
  db : GormDB
deriving DecidableEq, Repr

/-- `gorm.DB.First`: fetch the first row matching the condition set, ordered
by primary key; on zero matches report the distinguished record-not-found
error and leave the destination untouched. -/
def GormDB.first (db : GormDB) (dest : Model) (conds : List Cond) : ReadOneRes :=
  match db.failure with
  | some (msg, _) => ⟨some (.storeFailure msg), 0, dest⟩
  | none =>
    match pickFirstRow (db.liveRows.filter (fun r => r.matchesAll conds)) with
    | none => ⟨some .recordNotFound, 0, dest⟩
    | some r => ⟨none, 1, ⟨r.id, r.payload⟩⟩

/-- `gorm.DB.Find`: fetch every row matching the condition set; zero matches
yield an empty result and NO error (gorm reports `ErrRecordNotFound` only
from single-row fetches, never from `Find`). -/
def GormDB.find (db : GormDB) (conds : List Cond) : ReadManyRes :=
  match db.failure with
  | some (msg, _) => ⟨some (.storeFailure msg), 0, []⟩
  | none =>
    let ms := (db.liveRows.filter (fun r => r.matchesAll conds)).map
      (fun r => Model.mk r.id r.payload)
    ⟨none, Int.ofNat ms.length, ms⟩

/-- Pointers into the caller's heap of `Model` values: the store mutates the
pointed-to record in place (identity assignment on insert). -/
abbrev Ptr := Nat

/-- The caller-side heap of record values. -/
abbrev Heap := Ptr → Model

/-- Result of a single-record store insert: raw error, affected-row count,
the caller heap after the in-place identity write, and the store state. -/
structure CreateRes where
  error : Option GormError
  rowsAffected : Int
  heap : Heap
  db : GormDB

/-- `gorm.DB.Create` on a single record: insert the pointed-to record,
assigning a fresh identity in place when its primary key is the zero
value, and report one affected row. -/
def GormDB.createOne (db : GormDB) (h : Heap) (p : Ptr) : CreateRes :=
  match db.failure with
  | some (msg, _) => ⟨some (.storeFailure msg), 0, h, db⟩
  | none =>
    let m := h p
    let newId := if m.id = 0 then db.nextId else m.id
    let h2 : Heap := fun q => if q = p then ⟨newId, m.payload⟩ else h q
    let db2 : GormDB :=
      { db with
        rows := db.rows ++ [⟨newId, m.payload, none⟩]
        nextId := max db.nextId (newId + 1) }
    ⟨none, 1, h2, db2⟩

/-- Insert a sequence of records one after the other (the store's bulk
insert), assigning fresh identities in place as for a single insert. -/
def insertAll (db : GormDB) (h : Heap) : List Ptr → GormDB × Heap
  | [] => (db, h)
  | p :: ps =>
    let m := h p
    let newId := if m.id = 0 then db.nextId else m.id
    let h2 : Heap := fun q => if q = p then ⟨newId, m.payload⟩ else h q
    let db2 : GormDB :=
      { db with
        rows := db.rows ++ [⟨newId, m.payload, none⟩]
        nextId := max db.nextId (newId + 1) }
    insertAll db2 h2 ps

/-- `gorm.DB.Create` on a slice of records: on success every record is
inserted and the affected-row count is the slice length; on an injected
store failure the store reports the error together with however many rows
it had committed before failing. -/
def GormDB.createMany (db : GormDB) (h : Heap) (ps : List Ptr) : CreateRes :=
  match db.failure with
  | some (msg, c) => ⟨some (.storeFailure msg), Int.ofNat (min c ps.length), h, db⟩
  | none =>
    let (db2, h2) := insertAll db h ps
    ⟨none, Int.ofNat ps.length, h2, db2⟩

/-- `gorm.DB.Save`: upsert by identity.  A zero primary key inserts with a
fresh identity; a non-zero primary key updates every visible row carrying
it, and when that update affects zero rows gorm falls back to inserting
the record with the given key. -/
def GormDB.save (db : GormDB) (m : Model) : WriteRes :=
  match db.failure with
  | some (msg, _) => ⟨some (.storeFailure msg), 0, db⟩
  | none =>
    if m.id = 0 then
      ⟨none, 1,
        { db with
          rows := db.rows ++ [⟨db.nextId, m.payload, none⟩]
          nextId := db.nextId + 1 }⟩
    else
      let matched := db.liveRows.filter (fun r => r.id == m.id)
      if matched.isEmpty then
        ⟨none, 1,
          { db with
            rows := db.rows ++ [⟨m.id, m.payload, none⟩]
            nextId := max db.nextId (m.id + 1) }⟩
      else
        ⟨none, Int.ofNat matched.length,
          { db with
            rows := db.rows.map
              (fun r => if db.live r && r.id == m.id then ⟨r.id, m.payload, r.deletedAt⟩ else r) }⟩

/-- `gorm.DB.Delete`: delete by the record's primary key.  A zero primary
key (no conditions at all) is refused by gorm.  When the record type
carries the soft-delete column the store sets that column to the current
time on every visible matching row instead of removing it; otherwise the
matching rows are physically removed.  The affected-row count is the number
of rows the statement touched. -/
def GormDB.delete (db : GormDB) (m : Model) : WriteRes :=
  match db.failure with
  | some (msg, _) => ⟨some (.storeFailure msg), 0, db⟩
  | none =>
    if m.id = 0 then
      ⟨some (.storeFailure "WHERE conditions required"), 0, db⟩
    else if db.hasDeletedAt then
      let touched := db.rows.countP (fun r => r.id == m.id && r.deletedAt.isNone)
      ⟨none, Int.ofNat touched,
        { db with
          rows := db.rows.map
            (fun r => if r.id == m.id && r.deletedAt.isNone then ⟨r.id, r.payload, some db.now⟩ else r) }⟩
    else
      let touched := db.rows.countP (fun r => r.id == m.id)
      ⟨none, Int.ofNat touched, { db with rows := db.rows.filter (fun r => !(r.id == m.id)) }⟩

/-- A concrete value stored in the embedded `IRepository[T]` interface field
of `Repository[T]` (only the `BatchCreate` member matters for dispatch). -/
structure IRepositoryImpl where
  batchCreate : List Ptr → Int × Option GormError

/-- The `Repository[T]` struct of `src/unnamed/part_000`: it embeds the
`IRepository[T]` interface (an interface value, `none` when never assigned)
and holds the bound store handle in its `Database` field.  Handles are
identified by number; the state behind a handle is passed to each
operation explicitly. -/
structure Repository where
  embedded : Option IRepositoryImpl
  Database : Nat

/-- `InitRepository`: builds a `Repository` carrying the given store handle;
the embedded interface field is never assigned, so it keeps Go's zero
value for interfaces (nil). -/
def InitRepository (database : Nat) : Repository :=
  { embedded := none, Database := database }

/-- `Repository.First` (part_000 lines 56-64): delegate to the store's
single-row fetch; propagate the error unless it is nil or the
distinguished record-not-found value.  Returns the error, the state of
the caller's destination record after the call, and the receiver. -/
def Repository.First (r : Repository) (db : GormDB) (model : Model) (conds : List Cond) :
    Option GormError × Model × Repository :=
  let res := db.first model conds
  if res.error ≠ none ∧ res.error ≠ some .recordNotFound then
    (res.error, res.dest, r)
  else
    (none, res.dest, r)

/-- `Repository.FirstOrFail` (part_000 lines 67-75): delegate to the store's
single-row fetch; propagate any non-nil error, the record-not-found value
included. -/
def Repository.FirstOrFail (r : Repository) (db : GormDB) (model : Model) (conds : List Cond) :
    Option GormError × Model × Repository :=
  let res := db.first model conds
  if res.error ≠ none then
    (res.error, res.dest, r)
  else
    (none, res.dest, r)

/-- `Repository.Find` (part_000 lines 78-86): delegate to the store's
multi-row fetch; propagate the error unless it is nil or the
record-not-found value. -/
def Repository.Find (r : Repository) (db : GormDB) (conds : List Cond) :
    Option GormError × List Model × Repository :=
  let res := db.find conds
  if res.error ≠ none ∧ res.error ≠ some .recordNotFound then
    (res.error, res.dest, r)
  else
    (none, res.dest, r)

/-- `Repository.FindOrFail` (part_000 lines 89-97): delegate to the store's
multi-row fetch; propagate any non-nil error. -/
def Repository.FindOrFail (r : Repository) (db : GormDB) (conds : List Cond) :
    Option GormError × List Model × Repository :=
  let res := db.find conds
  if res.error ≠ none then
    (res.error, res.dest, r)
  else
    (none, res.dest, r)

/-- `Repository.Create` (part_000 lines 100-108): insert the pointed-to
record; on failure return nil and the error, on success return the very
pointer that was passed in together with a nil error. -/
def Repository.Create (r : Repository) (db : GormDB) (h : Heap) (p : Ptr) :
    Option Ptr × Option GormError × Heap × GormDB × Repository :=
  let res := db.createOne h p
  if res.error ≠ none then
    (none, res.error, res.heap, res.db, r)
  else
    (some p, none, res.heap, res.db, r)

/-- `Repository.BulkCreate` (part_000 lines 111-119): insert the slice of
records; in both the failure and the success case return the store's
affected-row count together with the store's error. -/
def Repository.BulkCreate (r : Repository) (db : GormDB) (h : Heap) (ps : List Ptr) :
    Int × Option GormError × Heap × GormDB × Repository :=
  let res := db.createMany h ps
  if res.error ≠ none then
    (res.rowsAffected, res.error, res.heap, res.db, r)
  else
    (res.rowsAffected, none, res.heap, res.db, r)

/-- `Repository.Update` (part_000 lines 122-130): delegate to the store's
upsert-by-identity save; propagate any non-nil error. -/
def Repository.Update (r : Repository) (db : GormDB) (m : Model) :
    Option GormError × GormDB × Repository :=
  let res := db.save m
  if res.error ≠ none then
    (res.error, res.db, r)
  else
    (none, res.db, r)

/-- `Repository.Delete` (part_000 lines 136-144): delegate to the store's
delete; in both the failure and the success case return the store's
affected-row count together with the store's error. -/
def Repository.Delete (r : Repository) (db : GormDB) (m : Model) :
    Int × Option GormError × GormDB × Repository :=
  let res := db.delete m
  if res.error ≠ none then
    (res.rowsAffected, res.error, res.db, r)
  else
    (res.rowsAffected, none, res.db, r)

/-- `Repository.GetDB` (part_000 lines 147-149): return the bound store
handle, and the receiver unchanged. -/
def Repository.GetDB (r : Repository) : Nat × Repository :=
  (r.Database, r)

/-! ## Go method dispatch on `Repository[T]`

`IRepository[T]` declares a method named `BatchCreate`, while the struct
defines one named `BulkCreate`.  Calling a method on a `*Repository[T]` value
dispatches to a directly defined method when one with that name exists, and
otherwise to the method promoted from the embedded `IRepository[T]` interface
field — which panics with a nil-pointer dereference when that field is nil. -/

/-- The method names occurring on `IRepository[T]` and `Repository[T]`. -/
inductive GoMethod where
  | first | firstOrFail | find | findOrFail | create | batchCreate | bulkCreate
  | update | delete | getDB
deriving DecidableEq, Repr

/-- The method set the `IRepository[T]` interface declares
(part_000 lines 14-24). -/
def interfaceMethods : List GoMethod :=
  [.first, .firstOrFail, .find, .findOrFail, .create, .batchCreate, .update, .delete, .getDB]

/-- The methods defined directly with receiver `*Repository[T]`
(part_000 lines 56-149). -/
def repositoryDirectMethods : List GoMethod :=
  [.first, .firstOrFail, .find, .findOrFail, .create, .bulkCreate, .update, .delete, .getDB]

/-- How a method call on a `*Repository[T]` value resolves: to a directly
defined method, or to the method promoted from the embedded interface. -/
inductive Resolution where
  | direct
  | promotedFromEmbedded
deriving DecidableEq, Repr

/-- Go method resolution for `*Repository[T]`: a directly defined method
shadows the one promoted from the embedded interface field. -/
def resolveMethod (m : GoMethod) : Resolution :=
  if m ∈ repositoryDirectMethods then .direct else .promotedFromEmbedded

/-- Outcome of a dynamically dispatched call: a value, or a runtime panic
from calling through a nil interface value. -/
inductive CallOutcome (α : Type) where
  | ok (val : α)
  | nilPointerPanic
deriving DecidableEq, Repr

/-- Invoking `BatchCreate` on the `IRepository[T]` value returned by
`InitRepository`: resolution finds no direct method of that name, so the
call goes to the embedded interface field; a nil field panics. -/
def callBatchCreate (r : Repository) (db : GormDB) (h : Heap) (ps : List Ptr) :
    CallOutcome (Int × Option GormError) :=
  match resolveMethod .batchCreate with
  | .direct =>
    let res := r.BulkCreate db h ps
    .ok (res.1, res.2.1)
  | .promotedFromEmbedded =>
    match r.embedded with
    | none => .nilPointerPanic
    | some impl => .ok (impl.batchCreate ps)

/-! ## Helper lemmas about the store model -/

/-- With no injected failure and no visible row matching the condition set,
the store's single-row fetch reports the distinguished record-not-found
error and leaves the destination untouched. -/
theorem first_store_no_match (db : GormDB) (dest : Model) (conds : List Cond)
    (hfail : db.failure = none)
    (hmatch : db.liveRows.filter (fun row => row.matchesAll conds) = []) :
    db.first dest conds = ⟨some .recordNotFound, 0, dest⟩ := by
  simp [GormDB.first, hfail, hmatch, pickFirstRow]

/-- With no injected failure and no visible row matching the condition set,
the `First` wrapper suppresses the record-not-found error and leaves the
destination untouched. -/
theorem First_wrapper_no_match (r : Repository) (db : GormDB) (dest : Model)
    (conds : List Cond)
    (hfail : db.failure = none)
    (hmatch : db.liveRows.filter (fun row => row.matchesAll conds) = []) :
    r.First db dest conds = (none, dest, r) := by
  simp [Repository.First, first_store_no_match db dest conds hfail hmatch]

/-- The store's single-row fetch reports nil, record-not-found, or some
other store error. -/
theorem first_error_shape (db : GormDB) (dest : Model) (conds : List Cond) :
    (db.first dest conds).error = none ∨
    (db.first dest conds).error = some .recordNotFound ∨
    ∃ msg, (db.first dest conds).error = some (.storeFailure msg) := by
  unfold GormDB.first
  cases hf : db.failure with
  | some p => right; right; exact ⟨p.1, by cases p; rfl⟩
  | none =>
    cases hp : pickFirstRow (db.liveRows.filter (fun row => row.matchesAll conds)) with
    | none => right; left; rfl
    | some row => left; rfl

/-- The store's multi-row fetch never reports the record-not-found value:
an empty match set is an empty result with a nil error. -/
theorem find_error_shape (db : GormDB) (conds : List Cond) :
    (db.find conds).error = none ∨
    ∃ msg, (db.find conds).error = some (.storeFailure msg) := by
  unfold GormDB.find
  cases hf : db.failure with
  | some p => right; exact ⟨p.1, by cases p; rfl⟩
  | none => left; rfl

/-- The store's single-record insert reports nil or a non-not-found store
error. -/
theorem createOne_error_shape (db : GormDB) (h : Heap) (p : Ptr) :
    (db.createOne h p).error = none ∨
    ∃ msg, (db.createOne h p).error = some (.storeFailure msg) := by
  unfold GormDB.createOne
  cases hf : db.failure with
  | some q => right; exact ⟨q.1, by cases q; rfl⟩
  | none => left; rfl

/-- The store's bulk insert reports nil or a non-not-found store error. -/
theorem createMany_error_shape (db : GormDB) (h : Heap) (ps : List Ptr) :
    (db.createMany h ps).error = none ∨
    ∃ msg, (db.createMany h ps).error = some (.storeFailure msg) := by
  unfold GormDB.createMany
  cases hf : db.failure with
  | some q => right; exact ⟨q.1, by cases q; rfl⟩
  | none => left; rfl

/-- The store's upsert-by-identity save reports nil or a non-not-found
store error. -/
theorem save_error_shape (db : GormDB) (m : Model) :
    (db.save m).error = none ∨
    ∃ msg, (db.save m).error = some (.storeFailure msg) := by
  unfold GormDB.save
  cases hf : db.failure with
  | some q => right; exact ⟨q.1, by cases q; rfl⟩
  | none =>
    by_cases h0 : m.id = 0
    · left; simp [h0]
    · by_cases hm : (db.liveRows.filter (fun row => row.id == m.id)).isEmpty
      · left; simp [h0, hm]
      · left; simp [h0, hm]

/-- The store's delete reports nil or a non-not-found store error. -/
theorem delete_error_shape (db : GormDB) (m : Model) :
    (db.delete m).error = none ∨
    ∃ msg, (db.delete m).error = some (.storeFailure msg) := by
  unfold GormDB.delete
  cases hf : db.failure with
  | some q => right; exact ⟨q.1, by cases q; rfl⟩
  | none =>
    by_cases h0 : m.id = 0
    · right; exact ⟨"WHERE conditions required", by simp [h0]⟩
    · by_cases hd : db.hasDeletedAt
      · left; simp [h0, hd]
      · left; simp [h0, hd]

/-! ## Claim theorems -/

/-- C1: for every condition set with zero matches, `First` (FindOne) returns
a nil error and leaves the caller-provided target record in its prior
state; the store's record-not-found error is suppressed rather than
propagated. -/
theorem First_zero_matches_suppresses_not_found
    (r : Repository) (db : GormDB) (dest : Model) (conds : List Cond)
    (hfail : db.failure = none)
    (hmatch : db.liveRows.filter (fun row => row.matchesAll conds) = []) :
    (db.first dest conds).error = some .recordNotFound ∧
    r.First db dest conds = (none, dest, r) :=
  ⟨by rw [first_store_no_match db dest conds hfail hmatch],
   First_wrapper_no_match r db dest conds hfail hmatch⟩

/-- C1 witness: an empty store, the condition `id = 5`. -/
theorem First_zero_matches_suppresses_not_found_witness :
    ((GormDB.mk [] false 1 100 none).first ⟨0, "z"⟩ [Cond.byId 5]).error =
      some .recordNotFound ∧
    (InitRepository 7).First ⟨[], false, 1, 100, none⟩ ⟨0, "z"⟩ [Cond.byId 5] =
      (none, ⟨0, "z"⟩, InitRepository 7) :=
  First_zero_matches_suppresses_not_found (InitRepository 7) ⟨[], false, 1, 100, none⟩
    ⟨0, "z"⟩ [Cond.byId 5] rfl rfl

/-- C2: evaluation of `FindOrFail` at a store with zero matches (empty
store, condition `id = 5`): the store's multi-row fetch reports no error
on an empty result, so `FindOrFail` — whose body only forwards the store's
error — returns a nil error and an empty result, not the distinct
not-found error its own documentation promises. -/
theorem FindOrFail_zero_matches_returns_no_error :
    (InitRepository 7).FindOrFail ⟨[], false, 1, 100, none⟩ [Cond.byId 5] =
      (none, [], InitRepository 7) := rfl

/-- C3: for every condition set with zero matches, `FirstOrFail`
(FindOneOrFail) surfaces the distinguished record-not-found error, which
is distinguishable from every other store error; and no operation other
than the `*OrFail` variants ever returns that error. -/
theorem FirstOrFail_not_found_only_orfail
    (r : Repository) (db : GormDB) (dest : Model) (conds : List Cond)
    (hfail : db.failure = none)
    (hmatch : db.liveRows.filter (fun row => row.matchesAll conds) = []) :
    (r.FirstOrFail db dest conds).1 = some .recordNotFound ∧
    (∀ msg, GormError.recordNotFound ≠ GormError.storeFailure msg) ∧
    (∀ (r' : Repository) (db' : GormDB) (dest' : Model) (conds' : List Cond),
      (r'.First db' dest' conds').1 ≠ some .recordNotFound) ∧
    (∀ (r' : Repository) (db' : GormDB) (conds' : List Cond),
      (r'.Find db' conds').1 ≠ some .recordNotFound) ∧
    (∀ (r' : Repository) (db' : GormDB) (h : Heap) (p : Ptr),
      (r'.Create db' h p).2.1 ≠ some .recordNotFound) ∧
    (∀ (r' : Repository) (db' : GormDB) (h : Heap) (ps : List Ptr),
      (r'.BulkCreate db' h ps).2.1 ≠ some .recordNotFound) ∧
    (∀ (r' : Repository) (db' : GormDB) (m : Model),
      (r'.Update db' m).1 ≠ some .recordNotFound) ∧
    (∀ (r' : Repository) (db' : GormDB) (m : Model),
      (r'.Delete db' m).2.1 ≠ some .recordNotFound) := by
  refine ⟨?_, ?_, ?_, ?_, ?_, ?_, ?_, ?_⟩
  · simp [Repository.FirstOrFail, first_store_no_match db dest conds hfail hmatch]
  · intro msg hcontra
    exact GormError.noConfusion hcontra
  · intro r' db' dest' conds'
    dsimp only [Repository.First]
    split
    · next hcond => exact hcond.2
    · simp
  · intro r' db' conds'
    dsimp only [Repository.Find]
    split
    · next hcond => exact hcond.2
    · simp
  · intro r' db' h p
    dsimp only [Repository.Create]
    split
    · next hcond =>
      rcases createOne_error_shape db' h p with hsh | ⟨msg, hsh⟩
      · simp [hsh]
      · simp [hsh]
    · simp
  · intro r' db' h ps
    dsimp only [Repository.BulkCreate]
    split
    · next hcond =>
      rcases createMany_error_shape db' h ps with hsh | ⟨msg, hsh⟩
      · simp [hsh]
      · simp [hsh]
    · simp
  · intro r' db' m
    dsimp only [Repository.Update]
    split
    · next hcond =>
      rcases save_error_shape db' m with hsh | ⟨msg, hsh⟩
      · simp [hsh]
      · simp [hsh]
    · simp
  · intro r' db' m
    dsimp only [Repository.Delete]
    split
    · next hcond =>
      rcases delete_error_shape db' m with hsh | ⟨msg, hsh⟩
      · simp [hsh]
      · simp [hsh]
    · simp

/-- C3 witness: an empty store, the condition `id = 5`. -/
theorem FirstOrFail_not_found_only_orfail_witness :
    ((InitRepository 7).FirstOrFail ⟨[], false, 1, 100, none⟩ ⟨0, "z"⟩
        [Cond.byId 5]).1 = some .recordNotFound :=
  (FirstOrFail_not_found_only_orfail (InitRepository 7) ⟨[], false, 1, 100, none⟩
    ⟨0, "z"⟩ [Cond.byId 5] rfl rfl).1

/-- C4: for every operation, an injected store error other than the
distinguished record-not-found value is propagated to the caller
verbatim — the very same error value, never suppressed or replaced. -/
theorem store_failures_propagated_verbatim
    (r : Repository) (db : GormDB) (dest : Model) (conds : List Cond)
    (h : Heap) (p : Ptr) (ps : List Ptr) (m : Model) (msg : String) (c : Nat)
    (hfail : db.failure = some (msg, c)) :
    (r.First db dest conds).1 = some (.storeFailure msg) ∧
    (r.FirstOrFail db dest conds).1 = some (.storeFailure msg) ∧
    (r.Find db conds).1 = some (.storeFailure msg) ∧
    (r.FindOrFail db conds).1 = some (.storeFailure msg) ∧
    (r.Create db h p).2.1 = some (.storeFailure msg) ∧
    (r.BulkCreate db h ps).2.1 = some (.storeFailure msg) ∧
    (r.Update db m).1 = some (.storeFailure msg) ∧
    (r.Delete db m).2.1 = some (.storeFailure msg) := by
  refine ⟨?_, ?_, ?_, ?_, ?_, ?_, ?_, ?_⟩
  · simp [Repository.First, GormDB.first, hfail]
  · simp [Repository.FirstOrFail, GormDB.first, hfail]
  · simp [Repository.Find, GormDB.find, hfail]
  · simp [Repository.FindOrFail, GormDB.find, hfail]
  · simp [Repository.Create, GormDB.createOne, hfail]
  · simp [Repository.BulkCreate, GormDB.createMany, hfail]
  · simp [Repository.Update, GormDB.save, hfail]
  · simp [Repository.Delete, GormDB.delete, hfail]

/-- C4 witness: a store with the injected failure `"boom"`. -/
theorem store_failures_propagated_verbatim_witness :
    ((InitRepository 7).First ⟨[], false, 1, 100, some ("boom", 0)⟩ ⟨0, "z"⟩
        []).1 = some (.storeFailure "boom") ∧
    ((InitRepository 7).FirstOrFail ⟨[], false, 1, 100, some ("boom", 0)⟩ ⟨0, "z"⟩
        []).1 = some (.storeFailure "boom") ∧
    ((InitRepository 7).Find ⟨[], false, 1, 100, some ("boom", 0)⟩
        []).1 = some (.storeFailure "boom") ∧
    ((InitRepository 7).FindOrFail ⟨[], false, 1, 100, some ("boom", 0)⟩
        []).1 = some (.storeFailure "boom") ∧
    ((InitRepository 7).Create ⟨[], false, 1, 100, some ("boom", 0)⟩
        (fun _ => ⟨0, "x"⟩) 0).2.1 = some (.storeFailure "boom") ∧
    ((InitRepository 7).BulkCreate ⟨[], false, 1, 100, some ("boom", 0)⟩
        (fun _ => ⟨0, "x"⟩) [0]).2.1 = some (.storeFailure "boom") ∧
    ((InitRepository 7).Update ⟨[], false, 1, 100, some ("boom", 0)⟩
        ⟨1, "x"⟩).1 = some (.storeFailure "boom") ∧
    ((InitRepository 7).Delete ⟨[], false, 1, 100, some ("boom", 0)⟩
        ⟨1, "x"⟩).2.1 = some (.storeFailure "boom") :=
  store_failures_propagated_verbatim (InitRepository 7)
    ⟨[], false, 1, 100, some ("boom", 0)⟩ ⟨0, "z"⟩ [] (fun _ => ⟨0, "x"⟩) 0 [0]
    ⟨1, "x"⟩ "boom" 0 rfl

/-- C5: whenever `Create` succeeds it returns the very pointer the caller
passed in — not a newly allocated value — and the pointed-to record now
carries the store-assigned identity when its primary key was the zero
value (and is untouched otherwise).  `Create` is the only operation of
the contract that returns a Record. -/
theorem Create_returns_same_reference
    (r : Repository) (db : GormDB) (h : Heap) (p : Ptr)
    (hfail : db.failure = none) :
    (r.Create db h p).1 = some p ∧
    (r.Create db h p).2.1 = none ∧
    ((h p).id = 0 → (r.Create db h p).2.2.1 p = ⟨db.nextId, (h p).payload⟩) ∧
    ((h p).id ≠ 0 → (r.Create db h p).2.2.1 p = h p) := by
  refine ⟨?_, ?_, ?_, ?_⟩
  · simp [Repository.Create, GormDB.createOne, hfail]
  · simp [Repository.Create, GormDB.createOne, hfail]
  · intro h0
    simp [Repository.Create, GormDB.createOne, hfail, h0]
  · intro h0
    simp [Repository.Create, GormDB.createOne, hfail, h0]

/-- C5 witness: an empty store, a record with an unassigned primary key at
pointer 3. -/
theorem Create_returns_same_reference_witness :
    ((InitRepository 7).Create ⟨[], false, 1, 100, none⟩ (fun _ => ⟨0, "x"⟩) 3).1 =
      some 3 ∧
    ((InitRepository 7).Create ⟨[], false, 1, 100, none⟩ (fun _ => ⟨0, "x"⟩) 3).2.2.1 3 =
      ⟨1, "x"⟩ :=
  have hc := Create_returns_same_reference (InitRepository 7) ⟨[], false, 1, 100, none⟩
    (fun _ => ⟨0, "x"⟩) 3 rfl
  ⟨hc.1, hc.2.2.1 rfl⟩

/-- C6: `BulkCreate` (BatchCreate) with N records returns an affected-row
count of exactly N when the store succeeds, and on a store failure returns
the store's error together with the row count the store reports as
partially committed. -/
theorem BulkCreate_affected_count
    (r : Repository) (db : GormDB) (h : Heap) (ps : List Ptr) :
    (db.failure = none →
      (r.BulkCreate db h ps).1 = Int.ofNat ps.length ∧
      (r.BulkCreate db h ps).2.1 = none) ∧
    (∀ msg c, db.failure = some (msg, c) →
      (r.BulkCreate db h ps).1 = Int.ofNat (min c ps.length) ∧
      (r.BulkCreate db h ps).2.1 = some (.storeFailure msg)) := by
  constructor
  · intro hfail
    simp [Repository.BulkCreate, GormDB.createMany, hfail]
  · intro msg c hfail
    simp [Repository.BulkCreate, GormDB.createMany, hfail]

/-- C6 witness: three records against an empty store, then against a store
failing with `"dup"` after two committed rows. -/
theorem BulkCreate_affected_count_witness :
    (((InitRepository 7).BulkCreate ⟨[], false, 1, 100, none⟩ (fun _ => ⟨0, "x"⟩)
        [0, 1, 2]).1 = Int.ofNat 3 ∧
      ((InitRepository 7).BulkCreate ⟨[], false, 1, 100, none⟩ (fun _ => ⟨0, "x"⟩)
        [0, 1, 2]).2.1 = none) ∧
    (((InitRepository 7).BulkCreate ⟨[], false, 1, 100, some ("dup", 2)⟩
        (fun _ => ⟨0, "x"⟩) [0, 1, 2]).1 = Int.ofNat (min 2 3) ∧
      ((InitRepository 7).BulkCreate ⟨[], false, 1, 100, some ("dup", 2)⟩
        (fun _ => ⟨0, "x"⟩) [0, 1, 2]).2.1 = some (.storeFailure "dup")) :=
  ⟨(BulkCreate_affected_count (InitRepository 7) ⟨[], false, 1, 100, none⟩
      (fun _ => ⟨0, "x"⟩) [0, 1, 2]).1 rfl,
   (BulkCreate_affected_count (InitRepository 7) ⟨[], false, 1, 100, some ("dup", 2)⟩
      (fun _ => ⟨0, "x"⟩) [0, 1, 2]).2 "dup" 2 rfl⟩

/-- C7: `Update` has upsert semantics.  With a visible row matching the
record's identity, it reports no error, keeps the number of stored rows
unchanged (no duplicate), and rewrites every visible matching row's
payload.  With no stored row matching the identity, it reports no error
and inserts exactly one new row — so each Update performed while no
matching identity exists inserts again, and retry is not idempotent. -/
theorem Update_upsert_semantics
    (r : Repository) (db : GormDB) (m : Model)
    (hfail : db.failure = none) :
    ((m.id ≠ 0 ∧ db.liveRows.filter (fun row => row.id == m.id) ≠ []) →
      (r.Update db m).1 = none ∧
      (r.Update db m).2.1.rows.length = db.rows.length ∧
      (∀ row ∈ (r.Update db m).2.1.rows,
        db.live row = true → row.id = m.id → row.payload = m.payload)) ∧
    (db.rows.filter (fun row => row.id == m.id) = [] →
      (r.Update db m).1 = none ∧
      (r.Update db m).2.1.rows.length = db.rows.length + 1) := by
  constructor
  · rintro ⟨hid, hm⟩
    have hempty : (db.liveRows.filter (fun row => row.id == m.id)).isEmpty = false := by
      simpa [List.isEmpty_iff] using hm
    refine ⟨?_, ?_, ?_⟩
    · simp [Repository.Update, GormDB.save, hfail, hid, hempty]
    · simp [Repository.Update, GormDB.save, hfail, hid, hempty]
    · intro row hrow hlive hrid
      simp only [Repository.Update, GormDB.save, hfail, hid, hempty] at hrow
      rcases List.mem_map.mp hrow with ⟨orig, horig, hfr⟩
      by_cases hcond : db.live orig && orig.id == m.id
      · rw [if_pos hcond] at hfr
        rw [← hfr]
      · rw [if_neg hcond] at hfr
        subst hfr
        exact absurd (by simp [hlive, hrid]) hcond
  · intro hnone
    have hlive : db.liveRows.filter (fun row => row.id == m.id) = [] := by
      have hall := List.filter_eq_nil_iff.mp hnone
      refine List.filter_eq_nil_iff.mpr ?_
      intro a ha
      exact hall a (List.mem_of_mem_filter ha)
    by_cases hid : m.id = 0
    · constructor
      · simp [Repository.Update, GormDB.save, hfail, hid]
      · simp [Repository.Update, GormDB.save, hfail, hid]
    · have hempty : (db.liveRows.filter (fun row => row.id == m.id)).isEmpty = true := by
        simp [hlive]
      constructor
      · simp [Repository.Update, GormDB.save, hfail, hid, hempty]
      · simp [Repository.Update, GormDB.save, hfail, hid, hempty]

/-- C7 witness: a store holding rows 1 and 2; updating row 2 keeps two rows
and rewrites its payload, while updating the absent identity 9 inserts a
third row. -/
theorem Update_upsert_semantics_witness :
    ((InitRepository 7).Update ⟨[⟨1, "a", none⟩, ⟨2, "b", none⟩], true, 3, 100, none⟩
        ⟨2, "bb"⟩).2.1.rows.length =
      (GormDB.mk [⟨1, "a", none⟩, ⟨2, "b", none⟩] true 3 100 none).rows.length ∧
    ((InitRepository 7).Update ⟨[⟨1, "a", none⟩, ⟨2, "b", none⟩], true, 3, 100, none⟩
        ⟨9, "new"⟩).2.1.rows.length =
      (GormDB.mk [⟨1, "a", none⟩, ⟨2, "b", none⟩] true 3 100 none).rows.length + 1 :=
  ⟨((Update_upsert_semantics (InitRepository 7)
      ⟨[⟨1, "a", none⟩, ⟨2, "b", none⟩], true, 3, 100, none⟩ ⟨2, "bb"⟩ rfl).1
      (by constructor <;> simp [GormDB.liveRows, GormDB.live])).2.1,
   ((Update_upsert_semantics (InitRepository 7)
      ⟨[⟨1, "a", none⟩, ⟨2, "b", none⟩], true, 3, 100, none⟩ ⟨9, "new"⟩ rfl).2
      (by simp)).2⟩

/-- C8: `Delete` returns the number of rows the store affected.  When the
record type carries the soft-delete column, the store sets that column to
the current time on every matching visible row instead of removing it (the
marked row stays stored, so it remains reachable bypassing the soft-delete
filtering) and default reads no longer see it; without that column the
matching rows are physically removed, and a subsequent `First` (FindOne)
by that identity finds nothing — a nil error with the target left in its
prior state. -/
theorem Delete_soft_or_hard
    (r : Repository) (db : GormDB) (m : Model) (dest : Model)
    (hfail : db.failure = none) (hid : m.id ≠ 0) :
    (db.hasDeletedAt = true →
      (r.Delete db m).1 =
        Int.ofNat (db.rows.countP (fun row => row.id == m.id && row.deletedAt.isNone)) ∧
      (r.Delete db m).2.1 = none ∧
      (r.Delete db m).2.2.1.rows.length = db.rows.length ∧
      (∀ row ∈ db.rows, row.id = m.id → row.deletedAt = none →
        Row.mk row.id row.payload (some db.now) ∈ (r.Delete db m).2.2.1.rows) ∧
      r.First (r.Delete db m).2.2.1 dest [Cond.byId m.id] = (none, dest, r)) ∧
    (db.hasDeletedAt = false →
      (r.Delete db m).1 = Int.ofNat (db.rows.countP (fun row => row.id == m.id)) ∧
      (r.Delete db m).2.1 = none ∧
      (∀ row ∈ (r.Delete db m).2.2.1.rows, row.id ≠ m.id) ∧
      r.First (r.Delete db m).2.2.1 dest [Cond.byId m.id] = (none, dest, r)) := by
  constructor
  · intro hd
    have hdel : (r.Delete db m).2.2.1 =
        { db with rows := db.rows.map (fun row =>
            if row.id == m.id && row.deletedAt.isNone then
              Row.mk row.id row.payload (some db.now)
            else row) } := by
      simp [Repository.Delete, GormDB.delete, hfail, hid, hd]
    refine ⟨?_, ?_, ?_, ?_, ?_⟩
    · simp [Repository.Delete, GormDB.delete, hfail, hid, hd]
    · simp [Repository.Delete, GormDB.delete, hfail, hid, hd]
    · rw [hdel]; simp
    · intro row hrow hrid hrdel
      rw [hdel]
      exact List.mem_map.mpr ⟨row, hrow, by simp [hrid, hrdel]⟩
    · rw [hdel]
      apply First_wrapper_no_match
      · simpa using hfail
      · refine List.filter_eq_nil_iff.mpr ?_
        intro a ha
        simp only [GormDB.liveRows, GormDB.live, List.mem_filter, hd] at ha
        rcases ha with ⟨hmem, hlive⟩
        simp only [Bool.not_true, Bool.false_or] at hlive
        rcases List.mem_map.mp hmem with ⟨orig, horig, hfr⟩
        intro hmat
        simp only [Row.matchesAll, List.all_cons, List.all_nil, Row.matchesCond,
          Bool.and_true] at hmat
        by_cases hcond : orig.id == m.id && orig.deletedAt.isNone
        · rw [if_pos hcond] at hfr
          rw [← hfr] at hlive
          simp at hlive
        · rw [if_neg hcond] at hfr
          subst hfr
          simp only [Bool.and_eq_true, beq_iff_eq, Bool.not_eq_true] at hcond ⊢
          exact hcond (by constructor <;> simp_all)
  · intro hd
    have hdel : (r.Delete db m).2.2.1 =
        { db with rows := db.rows.filter (fun row => !(row.id == m.id)) } := by
      simp [Repository.Delete, GormDB.delete, hfail, hid, hd]
    refine ⟨?_, ?_, ?_, ?_⟩
    · simp [Repository.Delete, GormDB.delete, hfail, hid, hd]
    · simp [Repository.Delete, GormDB.delete, hfail, hid, hd]
    · intro row hrow
      rw [hdel] at hrow
      rcases List.mem_filter.mp hrow with ⟨hmem, hne⟩
      simpa using hne
    · rw [hdel]
      apply First_wrapper_no_match
      · simpa using hfail
      · refine List.filter_eq_nil_iff.mpr ?_
        intro a ha
        simp only [GormDB.liveRows, GormDB.live, List.mem_filter, hd] at ha
        rcases ha with ⟨hmem, hlive⟩
        rcases hmem with ⟨hmem2, hne⟩
        intro hmat
        simp only [Row.matchesAll, List.all_cons, List.all_nil, Row.matchesCond,
          Bool.and_true] at hmat
        simp [hmat] at hne

/-- C8 witness: deleting identity 2 from a two-row store — once with the
soft-delete column, once without. -/
theorem Delete_soft_or_hard_witness :
    (((InitRepository 7).Delete ⟨[⟨1, "a", none⟩, ⟨2, "b", none⟩], true, 3, 100, none⟩
        ⟨2, "b"⟩).1 = Int.ofNat 1 ∧
      Row.mk 2 "b" (some 100) ∈
        ((InitRepository 7).Delete ⟨[⟨1, "a", none⟩, ⟨2, "b", none⟩], true, 3, 100, none⟩
          ⟨2, "b"⟩).2.2.1.rows) ∧
    (((InitRepository 7).Delete ⟨[⟨1, "a", none⟩, ⟨2, "b", none⟩], false, 3, 100, none⟩
        ⟨2, "b"⟩).1 = Int.ofNat 1 ∧
      (InitRepository 7).First
        ((InitRepository 7).Delete ⟨[⟨1, "a", none⟩, ⟨2, "b", none⟩], false, 3, 100, none⟩
          ⟨2, "b"⟩).2.2.1 ⟨0, "z"⟩ [Cond.byId 2] =
        (none, ⟨0, "z"⟩, InitRepository 7)) := by
  have hsoft := (Delete_soft_or_hard (InitRepository 7)
    ⟨[⟨1, "a", none⟩, ⟨2, "b", none⟩], true, 3, 100, none⟩ ⟨2, "b"⟩ ⟨0, "z"⟩
    rfl (by decide)).1 rfl
  have hhard := (Delete_soft_or_hard (InitRepository 7)
    ⟨[⟨1, "a", none⟩, ⟨2, "b", none⟩], false, 3, 100, none⟩ ⟨2, "b"⟩ ⟨0, "z"⟩
    rfl (by decide)).2 rfl
  exact ⟨⟨hsoft.1, hsoft.2.2.2.1 ⟨2, "b", none⟩ (by simp) rfl rfl⟩,
    ⟨hhard.1, hhard.2.2.2⟩⟩

/-- C9: no operation mutates the receiver — in particular the bound store
handle set at construction never changes — and `GetDB` on a repository
built by `InitRepository` returns exactly the handle that was passed in. -/
theorem repository_handle_immutable
    (d : Nat) (r : Repository) (db : GormDB) (dest : Model) (conds : List Cond)
    (h : Heap) (p : Ptr) (ps : List Ptr) (m : Model) :
    (r.First db dest conds).2.2 = r ∧
    (r.FirstOrFail db dest conds).2.2 = r ∧
    (r.Find db conds).2.2 = r ∧
    (r.FindOrFail db conds).2.2 = r ∧
    (r.Create db h p).2.2.2.2 = r ∧
    (r.BulkCreate db h ps).2.2.2.2 = r ∧
    (r.Update db m).2.2 = r ∧
    (r.Delete db m).2.2.2 = r ∧
    r.GetDB.2 = r ∧
    (InitRepository d).GetDB.1 = d := by
  refine ⟨?_, ?_, ?_, ?_, ?_, ?_, ?_, ?_, rfl, rfl⟩ <;>
    first
      | (dsimp only [Repository.First]; split <;> rfl)
      | (dsimp only [Repository.FirstOrFail]; split <;> rfl)
      | (dsimp only [Repository.Find]; split <;> rfl)
      | (dsimp only [Repository.FindOrFail]; split <;> rfl)
      | (dsimp only [Repository.Create]; split <;> rfl)
      | (dsimp only [Repository.BulkCreate]; split <;> rfl)
      | (dsimp only [Repository.Update]; split <;> rfl)
      | (dsimp only [Repository.Delete]; split <;> rfl)

/-- C10: `InitRepository` leaves the embedded `IRepository[T]` interface
field nil; the struct defines a method named `BulkCreate` while the
interface declares `BatchCreate`, so a `BatchCreate` call through the
returned interface value resolves to the promoted method of the nil
embedded interface and panics instead of performing a bulk insert. -/
theorem BatchCreate_dispatches_to_nil_embedded
    (d : Nat) (db : GormDB) (h : Heap) (ps : List Ptr) :
    (InitRepository d).embedded = none ∧
    GoMethod.batchCreate ∈ interfaceMethods ∧
    GoMethod.batchCreate ∉ repositoryDirectMethods ∧
    GoMethod.bulkCreate ∈ repositoryDirectMethods ∧
    resolveMethod .batchCreate = .promotedFromEmbedded ∧
    callBatchCreate (InitRepository d) db h ps = .nilPointerPanic :=
  ⟨rfl, by decide, by decide, by decide, by decide, rfl⟩

end Regorm
